import Mathlib

/-! packer-plugin-xenserver: retention policy, VDI upload step, VNC port step

A shallow embedding of

* `builder/xenserver/common/config/common_config.go`
  (`CommonConfig.ShouldKeepVM`, `CommonConfig.GetISOSR`),
* `builder/xenserver/common/step_upload_vdi.go`
  (`StepUploadVdi.Run`, `StepUploadVdi.Cleanup`),
* `builder/xenserver/common/step_get_vnc_port.go`
  (`StepGetVNCPort.Run`, `StepGetVNCPort.Cleanup`).

Go strings are Lean strings, Go errors are their `Error()` text, a Go `(value, error)`
pair whose value is read only when the error is nil is an `Except String value`, and a
pair whose value is read regardless is a product with an `Option String` error.
A Go panic is the `none` of an `Option`.  The remote hypervisor, the SSH channel and the
local file system are oracles; every call to them is appended to a trace of events.
-/

namespace XenServer

/-! ## Values kept in the state bag -/

/-- The part of `CommonConfig` read by the embedded functions. -/
structure CommonConfig where
  SrName : String
  SrISOName : String
  KeepVM : String

/-- An `xenapi.SRRef`. -/
abbrev SRRef := String

/-- An `xenapi.VDIRef`. -/
abbrev VDIRef := String

/-- The fields of `xenapi.VDIRecord` set by `StepUploadVdi.Run`. -/
structure VDIRecord where
  NameLabel : String
  VirtualSize : Int
  Type_ : String
  Sharable : Bool
  ReadOnly : Bool
  SR : SRRef
  OtherConfig : List (String × String)

/-- The `xen.Connection` used by `GetISOSR` and `StepUploadVdi`: its fields and the
answers of the XenAPI calls made through it.  `VDI_Destroy n vdi` is the answer to the
call made when `n` destroy calls have been made before it. -/
structure Connection where
  Host : String
  Port : Int
  Session : String
  SR_GetAll : List SRRef × Option String
  SR_GetByNameLabel : String → List SRRef × Option String
  VDI_Create : VDIRecord → Except String VDIRef
  VDI_GetUUID : VDIRef → Except String String
  VDI_GetByUUID : String → Except String VDIRef
  VDI_Destroy : Nat → VDIRef → Option String

/-- A dynamically typed value found in the map returned by `GetSoftwareVersion`. -/
inductive XmlVal where
  | str (s : String)
  | int (n : Int)
  | bool (b : Bool)

/-- A Go `map[string]interface{}`; `none` is the nil map. -/
abbrev GoMap := Option (List (String × XmlVal))

/-- Indexing a Go map: the nil interface (`none`) when the map is nil or lacks the key. -/
def GoMap.index (m : GoMap) (key : String) : Option XmlVal :=
  match m with
  | none => none
  | some kvs => (kvs.find? (fun kv => kv.1 == key)).map (fun kv => kv.2)

/-- A host of the pool, as seen through `xsclient`: the result of
`GetSoftwareVersion`, a map together with an error. -/
structure Host where
  GetSoftwareVersion : GoMap × Option String

/-- The `xsclient.XenAPIClient` used by `StepGetVNCPort`. -/
structure XenAPIClient where
  GetHosts : Except String (List Host)

/-- A value stored in the state bag (a Go `interface{}`). -/
inductive Val where
  | str (s : String)
  | uint (n : Nat)
  | bool (b : Bool)
  | ui
  | commonconfig (c : CommonConfig)
  | connection (c : Connection)
  | xsclient (c : XenAPIClient)

/-- The `multistep.StateBag`: a map from keys to values. -/
abbrev StateBag := String → Option Val

/-- `state.GetOk(key)`. -/
def StateBag.GetOk (state : StateBag) (key : String) : Option Val := state key

/-- `state.Put(key, v)`. -/
def StateBag.Put (state : StateBag) (key : String) (v : Val) : StateBag :=
  fun k => if k = key then some v else state k

/-- The empty bag. -/
def StateBag.empty : StateBag := fun _ => none

/-- `multistep.StateCancelled`. -/
def StateCancelled : String := "cancelled"

/-- `multistep.StateHalted`. -/
def StateHalted : String := "halted"

/-- `multistep.StepAction`. -/
inductive StepAction where
  | ActionContinue
  | ActionHalt
  deriving DecidableEq, Repr

/-! ## Observable events -/

/-- One observable effect of a step. -/
inductive Event where
  | say (msg : String)
  | error (msg : String)
  | log (msg : String)
  | put (key : String) (v : Val)
  | ssh (cmd : String)
  | getHosts
  | getSoftwareVersion
  | srGetAll
  | srGetByNameLabel (label : String)
  | openFile (path : String)
  | statFile (path : String)
  | vdiCreate (record : VDIRecord)
  | vdiGetUUID (vdi : VDIRef)
  | vdiGetByUUID (uuid : String)
  | vdiDestroy (vdi : VDIRef)
  | sleep (seconds : Nat)
  | httpUpload (url : String)

/-! ## Go string order -/

/-- The UTF-8 bytes of a string, as numbers. -/
def utf8Bytes (s : String) : List Nat :=
  s.toList.flatMap (fun c => (String.utf8EncodeChar c).map (fun b => b.toNat))

/-- Lexicographic order on byte sequences. -/
def bytesLt : List Nat → List Nat → Bool
  | [], [] => false
  | [], _ :: _ => true
  | _ :: _, [] => false
  | a :: as, b :: bs => if a < b then true else if b < a then false else bytesLt as bs

/-- Go's `<` on strings: bytewise lexicographic order. -/
def goStringLt (a b : String) : Bool := bytesLt (utf8Bytes a) (utf8Bytes b)

/-! ## common_config.go -/

/-- `CommonConfig.ShouldKeepVM`; `none` is the panic of the `default` case. -/
def CommonConfig.ShouldKeepVM (c : CommonConfig) (state : StateBag) : Option Bool :=
  if c.KeepVM = "always" then some true
  else if c.KeepVM = "never" then some false
  else if c.KeepVM = "on_success" then
    let cancelled := (state.GetOk StateCancelled).isSome
    let halted := (state.GetOk StateHalted).isSome
    some (!(cancelled || halted))
  else none

/-- `CommonConfig.GetISOSR`, with the trace of the XenAPI calls it makes. -/
def CommonConfig.GetISOSR (config : CommonConfig) (c : Connection) :
    Except String SRRef × List Event :=
  if config.SrISOName = "" then
    (.error "sr_iso_name must be specified in the packer configuration", [])
  else
    let t := [Event.srGetByNameLabel config.SrName]
    match c.SR_GetByNameLabel config.SrName with
    | (_, some err) => (.error err, t)
    | (srs, none) =>
      match srs with
      | [] => (.error ("Couldn\x27t find a SR with the specified name-label \x27"
                ++ config.SrName ++ "\x27"), t)
      | [sr] => (.ok sr, t)
      | _ :: _ :: _ => (.error ("Found more than one SR with the name \x27"
                ++ config.SrName ++ "\x27. The name must be unique"), t)

/-! ## step_upload_vdi.go -/

/-- The step `StepUploadVdi`. -/
structure StepUploadVdi where
  VdiNameFunc : Unit → String
  ImagePathFunc : Unit → String
  VdiUuidKey : String

/-- The local file system and the transfer channel used by `StepUploadVdi.Run`:
the error of `os.Open`, the size or error of `fh.Stat()`, and the error of
`HTTPUpload` for a given URL. -/
structure UploadEnv where
  Open : String → Option String
  Stat : String → Except String Int
  HTTPUpload : String → Option String

/-- What a `Run` leaves behind: the action returned (`none` when it panicked), the
state bag and the events in the order they happened. -/
structure RunResult where
  action : Option StepAction
  state : StateBag
  trace : List Event

/-- What a `Cleanup` leaves behind: whether it returned (`false` when it panicked),
the state bag and the events in the order they happened. -/
structure CleanupResult where
  returned : Bool
  state : StateBag
  trace : List Event

/-- `state.Get("commonconfig").(CommonConfig)`. -/
def getCommonConfig (state : StateBag) : Option CommonConfig :=
  match state "commonconfig" with
  | some (.commonconfig c) => some c
  | _ => none

/-- `state.Get("ui").(packer.Ui)`. -/
def getUi (state : StateBag) : Option Unit :=
  match state "ui" with
  | some .ui => some ()
  | _ => none

/-- `state.Get("client").(*xen.Connection)`. -/
def getConnection (state : StateBag) : Option Connection :=
  match state "client" with
  | some (.connection c) => some c
  | _ => none

/-- The `%v` rendering of a slice of strings. -/
def fmtSlice (xs : List String) : String := "[" ++ " ".intercalate xs ++ "]"

/-- `net.JoinHostPort`. -/
def JoinHostPort (host port : String) : String :=
  if host.toList.contains ':' then "[" ++ host ++ "]:" ++ port else host ++ ":" ++ port

/-- The address `HTTPUpload` is given by `StepUploadVdi.Run`. -/
def uploadUrl (c : Connection) (vdi : VDIRef) : String :=
  "https://" ++ JoinHostPort c.Host (toString c.Port) ++ "/import_raw_vdi?vdi=" ++ vdi
    ++ "&session_id=" ++ c.Session

/-- The record given to `VDI.Create` by `StepUploadVdi.Run`. -/
def uploadRecord (vdiName : String) (fileLength : Int) (sr : SRRef) : VDIRecord :=
  { NameLabel := vdiName, VirtualSize := fileLength, Type_ := "user", Sharable := false,
    ReadOnly := false, SR := sr, OtherConfig := [("temp", "temp")] }

/-- `StepUploadVdi.Run`. -/
def StepUploadVdi.Run (self : StepUploadVdi) (env : UploadEnv) (state : StateBag) :
    RunResult :=
  match getCommonConfig state, getUi state, getConnection state with
  | some config, some _, some c =>
    let imagePath := self.ImagePathFunc ()
    let vdiName := self.VdiNameFunc ()
    if imagePath = "" then
      ⟨some .ActionContinue, state, []⟩
    else
      let t1 := [Event.say ("Step: Upload VDI \x27" ++ vdiName ++ "\x27"), Event.srGetAll,
                 Event.say ("Step: Found SRs \x27" ++ fmtSlice c.SR_GetAll.1 ++ "\x27")]
      match config.GetISOSR c with
      | (.error err, ts) =>
        ⟨some .ActionHalt, state, t1 ++ ts ++ [Event.error ("Unable to get SR: " ++ err)]⟩
      | (.ok sr, ts) =>
        let t2 := t1 ++ ts ++ [Event.openFile imagePath]
        match env.Open imagePath with
        | some err =>
          ⟨some .ActionHalt, state, t2 ++ [Event.error ("Unable to open disk image \x27"
            ++ imagePath ++ "\x27: " ++ err)]⟩
        | none =>
          let t3 := t2 ++ [Event.statFile imagePath]
          match env.Stat imagePath with
          | .error err =>
            ⟨some .ActionHalt, state, t3 ++ [Event.error ("Unable to stat disk image \x27"
              ++ imagePath ++ "\x27: " ++ err)]⟩
          | .ok fileLength =>
            let record := uploadRecord vdiName fileLength sr
            let t4 := t3 ++ [Event.vdiCreate record]
            match c.VDI_Create record with
            | .error err =>
              ⟨some .ActionHalt, state, t4 ++ [Event.error ("Unable to create VDI \x27"
                ++ vdiName ++ "\x27: " ++ err)]⟩
            | .ok vdi =>
              let t5 := t4 ++ [Event.vdiGetUUID vdi]
              match c.VDI_GetUUID vdi with
              | .error err =>
                ⟨some .ActionHalt, state, t5 ++ [Event.error
                  ("Unable to get UUID of VDI \x27" ++ vdiName ++ "\x27: " ++ err)]⟩
              | .ok vdiUuid =>
                let state1 := state.Put self.VdiUuidKey (.str vdiUuid)
                let t6 := t5 ++ [Event.put self.VdiUuidKey (.str vdiUuid),
                                 Event.httpUpload (uploadUrl c vdi)]
                match env.HTTPUpload (uploadUrl c vdi) with
                | some err =>
                  ⟨some .ActionHalt, state1, t6 ++ [Event.error
                    ("Unable to upload VDI: " ++ err)]⟩
                | none => ⟨some .ActionContinue, state1, t6⟩
  | _, _, _ => ⟨none, state, []⟩

/-- The loop `for i := 0; i < 3; i++` of `StepUploadVdi.Cleanup`: `remaining` is
`3 - i`, the result is the final `err` and the events of the loop. -/
def destroyLoop (c : Connection) (vdi : VDIRef) :
    (remaining : Nat) → (i : Nat) → (err : Option String) → Option String × List Event
  | 0, _, err => (err, [])
  | remaining + 1, i, _ =>
    match c.VDI_Destroy i vdi with
    | none => (none, [Event.log "Trying to destroy VDI...", Event.vdiDestroy vdi])
    | some e =>
      let r := destroyLoop c vdi remaining (i + 1) (some e)
      (r.1, [Event.log "Trying to destroy VDI...", Event.vdiDestroy vdi, Event.sleep 1]
        ++ r.2)

/-- `StepUploadVdi.Cleanup`. -/
def StepUploadVdi.Cleanup (self : StepUploadVdi) (state : StateBag) : CleanupResult :=
  match getCommonConfig state, getUi state, getConnection state with
  | some config, some _, some c =>
    let vdiName := self.VdiNameFunc ()
    match config.ShouldKeepVM state with
    | none => ⟨false, state, []⟩
    | some true => ⟨true, state, []⟩
    | some false =>
      match state.GetOk self.VdiUuidKey with
      | none => ⟨true, state, []⟩
      | some (.str vdiUuid) =>
        if vdiUuid = "" then
          ⟨true, state, []⟩
        else
          match c.VDI_GetByUUID vdiUuid with
          | .error err =>
            ⟨true, state, [Event.vdiGetByUUID vdiUuid,
              Event.error ("Can\x27t get VDI \x27" ++ vdiUuid ++ "\x27: " ++ err)]⟩
          | .ok vdi =>
            let r := destroyLoop c vdi 3 0 none
            let t := Event.vdiGetByUUID vdiUuid :: r.2
            match r.1 with
            | some err =>
              ⟨true, state, t ++ [Event.error ("Can\x27t destroy VDI \x27" ++ vdiUuid
                ++ "\x27: " ++ err)]⟩
            | none =>
              ⟨true, state.Put self.VdiUuidKey (.str ""),
                t ++ [Event.say ("Destroyed VDI \x27" ++ vdiName ++ "\x27"),
                      Event.put self.VdiUuidKey (.str "")]⟩
      | some _ => ⟨false, state, []⟩
  | _, _, _ => ⟨false, state, []⟩

/-! ## strconv.ParseUint -/

/-- The two errors of `strconv.ParseUint`. -/
inductive NumError where
  | ErrSyntax
  | ErrRange
  deriving DecidableEq, Repr

/-- The text of `err.Error()` for a `*strconv.NumError` of `ParseUint` on `s`
(the quoting of `s` is rendered without escapes). -/
def NumError.Error (e : NumError) (s : String) : String :=
  "strconv.ParseUint: parsing \"" ++ s ++ "\": " ++
    match e with
    | .ErrSyntax => "invalid syntax"
    | .ErrRange => "value out of range"

/-- The digit loop of `strconv.ParseUint` in base 10, over the bytes of the string,
with 64-bit unsigned arithmetic.  A byte outside `0`..`9` is a syntax error (a letter
is a digit of value at least 10, which is not below the base). -/
def parseUintLoop (maxVal cutoff : Nat) : List Nat → Nat → Except NumError Nat
  | [], n => .ok n
  | c :: cs, n =>
    if 48 ≤ c ∧ c ≤ 57 then
      let d := c - 48
      if n ≥ cutoff then .error .ErrRange
      else
        let n10 := (n * 10) % 2 ^ 64
        let n1 := (n10 + d) % 2 ^ 64
        if n1 < n10 ∨ n1 > maxVal then .error .ErrRange
        else parseUintLoop maxVal cutoff cs n1
    else .error .ErrSyntax

/-- `strconv.ParseUint(s, 10, 16)`. -/
def ParseUint_10_16 (s : String) : Except NumError Nat :=
  if s = "" then .error .ErrSyntax
  else parseUintLoop (2 ^ 16 - 1) ((2 ^ 64 - 1) / 10 + 1) (utf8Bytes s) 0

/-! ## step_get_vnc_port.go -/

/-- The step `StepGetVNCPort`. -/
structure StepGetVNCPort where
  socat_running : Bool

/-- The answers of `ExecuteHostSSHCmd`: `ssh n cmd` is the answer to `cmd` when `n`
commands have been issued before it by the same call of `Run` or `Cleanup`. -/
abbrev SSH := Nat → String → Except String String

/-- What `StepGetVNCPort.Run` leaves behind: the action returned (`none` when it
panicked), the step, the state bag and the events in the order they happened. -/
structure VNCRunResult where
  action : Option StepAction
  self : StepGetVNCPort
  state : StateBag
  trace : List Event

/-- The command of the first tier. -/
def xenstoreReadCmd (domid : String) : String :=
  "xenstore-read /local/domain/" ++ domid ++ "/console/vnc-port"

/-- The text formatted twice in the relay branch, from the port written in the log
file name, the port listened on and the domain identifier. -/
def socatText (logport expectedport domid : String) : String :=
  "nohup socat -d -d -lf /tmp/socat-" ++ logport ++ " TCP4-LISTEN:" ++ expectedport
    ++ ",reuseaddr,fork,tcpwrap=socat,allow-table=all UNIX-CONNECT:/var/run/xen/vnc-"
    ++ domid ++ " &>/dev/null &"

/-- The command that starts the relay. -/
def socatCmd (domid : String) : String :=
  socatText ("59" ++ domid) ("59" ++ domid) domid

/-- The command that stops the relay. -/
def killCmd (domid : String) : String :=
  "pkill -f \x27socat.*/var/run/xen/vnc-" ++ domid ++ "$\x27"

/-- The end of `StepGetVNCPort.Run`, from `ui.Say("Setting remote vnc port ...")` on. -/
def StepGetVNCPort.finish (self : StepGetVNCPort) (state : StateBag) (t : List Event)
    (remote_vncport : String) : VNCRunResult :=
  let t1 := t ++ [Event.say ("Setting remote vnc port to " ++ remote_vncport)]
  match ParseUint_10_16 remote_vncport with
  | .error err =>
    ⟨some .ActionHalt, self, state,
      t1 ++ [Event.error ("Unable to convert \x27" ++ remote_vncport ++ "\x27 to an int"),
             Event.error (err.Error remote_vncport)]⟩
  | .ok remote_port =>
    ⟨some .ActionContinue, self, state.Put "instance_vnc_port" (.uint remote_port),
      t1 ++ [Event.put "instance_vnc_port" (.uint remote_port)]⟩

/-- `StepGetVNCPort.Run`. -/
def StepGetVNCPort.Run (self : StepGetVNCPort) (ExecuteHostSSHCmd : SSH)
    (state : StateBag) : VNCRunResult :=
  match getUi state with
  | none => ⟨none, self, state, []⟩
  | some _ =>
    let t0 := [Event.say "Step: forward the instances VNC port over SSH"]
    match state "domid" with
    | some (.str domid) =>
      let cmd := xenstoreReadCmd domid
      let t1 := t0 ++ [Event.ssh cmd]
      match ExecuteHostSSHCmd 0 cmd with
      | .ok remote_vncport => self.finish state t1 remote_vncport
      | .error err =>
        let t2 := t1 ++ [Event.error ("Unable to get VNC port (is the VM running?): " ++ err),
          Event.error ("XS7.5/7.6 no longer support xenstore-read: Try to use 5900.  "
            ++ "See https://bugs.xenserver.org/browse/XSO-906")]
        match state "client" with
        | some (.xsclient client) =>
          let t3 := t2 ++ [Event.getHosts]
          match client.GetHosts with
          | .error err =>
            ⟨some .ActionHalt, self, state,
              t3 ++ [Event.error ("Could not retrieve hosts in the pool: " ++ err)]⟩
          | .ok [] => ⟨none, self, state, t3⟩
          | .ok (host :: _) =>
            let t4 := t3 ++ [Event.getSoftwareVersion]
            match host.GetSoftwareVersion.1.index "product_version" with
            | some (.str xs_version) =>
              match host.GetSoftwareVersion.2 with
              | some err =>
                ⟨some .ActionHalt, self, state,
                  t4 ++ [Event.error ("Could not get the software version: " ++ err)]⟩
              | none =>
                if goStringLt "7.6.0" xs_version then
                  let expectedport := "59" ++ domid
                  let cmd1 := socatText expectedport expectedport domid
                  let t5 := t4 ++ [Event.say ("XS8.0+ no longer support xenstore-read: "
                    ++ "Make sure to install socat for XS8.0+, attempting to use socat"),
                    Event.ssh cmd1]
                  match ExecuteHostSSHCmd 1 cmd1 with
                  | .error _ =>
                    ⟨some .ActionHalt, self, state, t5 ++ [Event.say
                      "socat not available on XenServer, halting packer ..."]⟩
                  | .ok _ =>
                    StepGetVNCPort.finish { self with socat_running := true } state
                      (t5 ++ [Event.say (socatText expectedport expectedport domid)])
                      expectedport
                else self.finish state t4 "5900"
            | _ => ⟨none, self, state, t4⟩
        | _ => ⟨none, self, state, t2⟩
    | _ => ⟨none, self, state, t0⟩

/-- `StepGetVNCPort.Cleanup`. -/
def StepGetVNCPort.Cleanup (self : StepGetVNCPort) (ExecuteHostSSHCmd : SSH)
    (state : StateBag) : CleanupResult :=
  if !self.socat_running then ⟨true, state, []⟩
  else
    match state "domid" with
    | some (.str domid) =>
      let kill_cmd := killCmd domid
      match ExecuteHostSSHCmd 0 kill_cmd with
      | .error err =>
        ⟨true, state, [Event.ssh kill_cmd, Event.log
          ("Failed to kill socat process for vnc socket /var/run/xen/vnc-" ++ domid
            ++ ": " ++ err)]⟩
      | .ok _ =>
        ⟨true, state, [Event.ssh kill_cmd, Event.log
          ("Killed socat process for vnc socket /var/run/xen/vnc-" ++ domid)]⟩
    | _ => ⟨false, state, []⟩

/-! ## Reading a trace -/

/-- The number of `VDI.Destroy` calls in a trace. -/
def destroyCalls (t : List Event) : Nat :=
  t.countP (fun e => match e with | .vdiDestroy _ => true | _ => false)

/-- The number of `VDI.Create` calls in a trace. -/
def createCalls (t : List Event) : Nat :=
  t.countP (fun e => match e with | .vdiCreate _ => true | _ => false)

/-- The number of calls to the hypervisor API in a trace. -/
def remoteCalls (t : List Event) : Nat :=
  t.countP (fun e => match e with
    | .getHosts | .getSoftwareVersion | .srGetAll | .srGetByNameLabel _ | .vdiCreate _
    | .vdiGetUUID _ | .vdiGetByUUID _ | .vdiDestroy _ | .httpUpload _ | .ssh _ => true
    | _ => false)

/-- The number of `HTTPUpload` calls in a trace. -/
def uploadCalls (t : List Event) : Nat :=
  t.countP (fun e => match e with | .httpUpload _ => true | _ => false)

/-- The number of writes to a key in a trace. -/
def putCalls (key : String) (t : List Event) : Nat :=
  t.countP (fun e => match e with | .put k _ => k == key | _ => false)

/-- The number of times a remote command is issued in a trace. -/
def sshCalls (cmd : String) (t : List Event) : Nat :=
  t.countP (fun e => match e with | .ssh c => c == cmd | _ => false)

/-- The seconds slept in a trace. -/
def sleepSeconds (t : List Event) : Nat :=
  (t.map (fun e => match e with | .sleep n => n | _ => 0)).sum

/-! ## Decimal numerals -/

/-- Reading one more decimal digit `c` after the number `n`. -/
def digitStep (n : Nat) (c : Char) : Nat := 10 * n + (c.toNat - 48)

/-- The number written by a string of decimal digits. -/
def decimalValue (s : String) : Nat := s.toList.foldl digitStep 0

/-! ## Concrete worlds -/

/-- A state bag holding the ambient values of the VNC step: the domain identifier
and a client whose only host reports `version` and the error `verr`. -/
def exVncBag (domid : String) (versions : GoMap) (verr : Option String) : StateBag :=
  ((StateBag.empty.Put "ui" .ui).Put "domid" (.str domid)).Put "client"
    (.xsclient { GetHosts := .ok [{ GetSoftwareVersion := (versions, verr) }] })

/-- An SSH channel on which `xenstore-read` is missing and every other command is
accepted. -/
def exSSH : SSH := fun n _ => if n = 0 then .error "xenstore-read: not found" else .ok ""

/-- A configuration with distinct `sr_name` and `sr_iso_name`. -/
def exConfig (keep : String) : CommonConfig :=
  { SrName := "local", SrISOName := "iso-store", KeepVM := keep }

/-- A connection in which each of the labels `local` and `iso-store` names exactly one
repository, the created object is `OpaqueRef:vdi1` with identifier `uuid-1`, and
`VDI.Destroy` fails `failures` times before it succeeds. -/
def exConnection (failures : Nat) : Connection :=
  { Host := "xen.example", Port := 443, Session := "OpaqueRef:session",
    SR_GetAll := (["OpaqueRef:sr-local", "OpaqueRef:sr-iso"], none),
    SR_GetByNameLabel := fun label =>
      if label = "local" then (["OpaqueRef:sr-local"], none)
      else if label = "iso-store" then (["OpaqueRef:sr-iso"], none)
      else ([], none),
    VDI_Create := fun _ => .ok "OpaqueRef:vdi1",
    VDI_GetUUID := fun _ => .ok "uuid-1",
    VDI_GetByUUID := fun _ => .ok "OpaqueRef:vdi1",
    VDI_Destroy := fun n _ => if n < failures then some "VDI_IN_USE" else none }

/-- The connection of `exConnection 0`, except that `VDI.GetUUID` fails. -/
def exConnectionNoUuid : Connection :=
  { exConnection 0 with VDI_GetUUID := fun _ => .error "HANDLE_INVALID" }

/-- A state bag holding the ambient values of the upload step. -/
def exBag (keep : String) (c : Connection) : StateBag :=
  ((StateBag.empty.Put "commonconfig" (.commonconfig (exConfig keep))).Put "ui" .ui).Put
    "client" (.connection c)

/-- An upload step for the image `/tmp/disk.img`. -/
def exStep : StepUploadVdi :=
  { VdiNameFunc := fun _ => "disk", ImagePathFunc := fun _ => "/tmp/disk.img",
    VdiUuidKey := "vdi_uuid" }

/-- The bag of `exBag` after the upload step recorded the identifier `uuid-1`. -/
def exBagVdi (keep : String) (c : Connection) : StateBag :=
  (exBag keep c).Put exStep.VdiUuidKey (.str "uuid-1")

/-- A file system holding the image, with a transfer that fails or not. -/
def exEnv (uploadFails : Bool) : UploadEnv :=
  { Open := fun _ => none, Stat := fun _ => .ok 104857600,
    HTTPUpload := fun _ => if uploadFails then some "connection reset" else none }

end XenServer

open XenServer

/-! ## Retention policy -/

/-- C1: for every state bag, `ShouldKeepVM` returns true when `KeepVM` is `always`,
false when it is `never`, and when it is `on_success` it returns true exactly when
neither the cancelled key nor the halted key is present in the bag (and false
otherwise). -/
theorem ShouldKeepVM_policy (c : CommonConfig) (state : StateBag) :
    (c.KeepVM = "always" → c.ShouldKeepVM state = some true) ∧
    (c.KeepVM = "never" → c.ShouldKeepVM state = some false) ∧
    (c.KeepVM = "on_success" →
      (c.ShouldKeepVM state = some true ↔
        (state.GetOk StateCancelled = none ∧ state.GetOk StateHalted = none)) ∧
      (c.ShouldKeepVM state = some false ↔
        ¬ (state.GetOk StateCancelled = none ∧ state.GetOk StateHalted = none))) := by
  refine ⟨?_, ?_, ?_⟩
  · intro h
    simp [CommonConfig.ShouldKeepVM, h]
  · intro h
    simp [CommonConfig.ShouldKeepVM, h]
  · intro h
    have h1 : ("on_success" : String) ≠ "always" := by decide
    have h2 : ("on_success" : String) ≠ "never" := by decide
    cases hc : state.GetOk StateCancelled <;> cases hh : state.GetOk StateHalted <;>
      simp [CommonConfig.ShouldKeepVM, h, h1, h2, hc, hh]

/-- C1 at a bag holding the cancelled flag: `on_success` does not keep, `always` keeps,
`never` does not. -/
theorem ShouldKeepVM_policy_witness :
    (exConfig "on_success").ShouldKeepVM (StateBag.empty.Put StateCancelled (.bool true))
        = some false ∧
    (exConfig "on_success").ShouldKeepVM StateBag.empty = some true ∧
    (exConfig "always").ShouldKeepVM (StateBag.empty.Put StateCancelled (.bool true))
        = some true ∧
    (exConfig "never").ShouldKeepVM StateBag.empty = some false := by
  have h := ShouldKeepVM_policy (exConfig "on_success")
    (StateBag.empty.Put StateCancelled (.bool true))
  exact ⟨(h.2.2 rfl).2.mpr (by simp [StateBag.GetOk, StateBag.Put]), by decide, by decide,
    by decide⟩

/-! ## Repository lookup -/

/-- The one XenAPI call of `GetISOSR` is the lookup by the label `SrName`. -/
theorem GetISOSR_trace (config : CommonConfig) (c : Connection)
    (hiso : config.SrISOName ≠ "") :
    (config.GetISOSR c).2 = [Event.srGetByNameLabel config.SrName] := by
  unfold CommonConfig.GetISOSR
  rw [if_neg hiso]
  rcases hl : c.SR_GetByNameLabel config.SrName with ⟨srs, _ | err⟩
  · rcases srs with _ | ⟨sr, _ | ⟨sr2, rest⟩⟩ <;> simp
  · simp

/-- `GetISOSR` succeeds exactly when its lookup returns one match and no error. -/
theorem GetISOSR_ok_iff (config : CommonConfig) (c : Connection) (sr : SRRef)
    (hiso : config.SrISOName ≠ "") :
    (config.GetISOSR c).1 = .ok sr ↔ c.SR_GetByNameLabel config.SrName = ([sr], none) := by
  unfold CommonConfig.GetISOSR
  rw [if_neg hiso]
  rcases hl : c.SR_GetByNameLabel config.SrName with ⟨srs, _ | err⟩
  · rcases srs with _ | ⟨sr1, _ | ⟨sr2, rest⟩⟩ <;> simp
  · simp

/-- When `GetISOSR` fails, `StepUploadVdi.Run` halts and leaves the bag as it was,
having made no call but the listing and the lookup of repositories. -/
theorem Run_of_GetISOSR_error (self : StepUploadVdi) (env : UploadEnv) (state : StateBag)
    (config : CommonConfig) (c : Connection) (err : String)
    (hcfg : getCommonConfig state = some config) (hui : getUi state = some ())
    (hc : getConnection state = some c) (hpath : self.ImagePathFunc () ≠ "")
    (herr : (config.GetISOSR c).1 = .error err) :
    self.Run env state = ⟨some .ActionHalt, state,
      [Event.say ("Step: Upload VDI \x27" ++ self.VdiNameFunc () ++ "\x27"), Event.srGetAll,
       Event.say ("Step: Found SRs \x27" ++ fmtSlice c.SR_GetAll.1 ++ "\x27")]
      ++ (config.GetISOSR c).2 ++ [Event.error ("Unable to get SR: " ++ err)]⟩ := by
  unfold StepUploadVdi.Run
  simp only [hcfg, hui, hc, if_neg hpath]
  rcases hg : config.GetISOSR c with ⟨_ | sr, ts⟩
  · rw [hg] at herr
    simp at herr
    simp [herr]
  · rw [hg] at herr
    simp at herr

/-- C5: for every non-empty image path and every configuration with a non-empty ISO
repository name, if the lookup by label made by `GetISOSR` returns zero matches or two
or more, `GetISOSR` returns an error and `StepUploadVdi.Run` returns Halt with no
`VDI.Create` call and nothing written under `VdiUuidKey` (the bag is unchanged);
`GetISOSR` returns a repository without error only when the lookup returns exactly one
match, and then it returns that match. -/
theorem Run_halts_on_ambiguous_SR (self : StepUploadVdi) (env : UploadEnv)
    (state : StateBag) (config : CommonConfig) (c : Connection)
    (hcfg : getCommonConfig state = some config) (hui : getUi state = some ())
    (hc : getConnection state = some c) (hpath : self.ImagePathFunc () ≠ "")
    (hiso : config.SrISOName ≠ "") :
    ((c.SR_GetByNameLabel config.SrName).1.length ≠ 1 →
      (∃ err, (config.GetISOSR c).1 = .error err) ∧
      (self.Run env state).action = some .ActionHalt ∧
      createCalls (self.Run env state).trace = 0 ∧
      putCalls self.VdiUuidKey (self.Run env state).trace = 0 ∧
      (self.Run env state).state = state) ∧
    (∀ sr, (config.GetISOSR c).1 = .ok sr →
      c.SR_GetByNameLabel config.SrName = ([sr], none)) ∧
    (∀ sr, c.SR_GetByNameLabel config.SrName = ([sr], none) →
      (config.GetISOSR c).1 = .ok sr) := by
  refine ⟨?_, fun sr h => (GetISOSR_ok_iff config c sr hiso).mp h,
    fun sr h => (GetISOSR_ok_iff config c sr hiso).mpr h⟩
  intro hlen
  have herr : ∃ err, (config.GetISOSR c).1 = .error err := by
    rcases hg : (config.GetISOSR c).1 with err | sr
    · exact ⟨err, rfl⟩
    · have := (GetISOSR_ok_iff config c sr hiso).mp hg
      rw [this] at hlen
      simp at hlen
  obtain ⟨err, he⟩ := herr
  rw [Run_of_GetISOSR_error self env state config c err hcfg hui hc hpath he,
    GetISOSR_trace config c hiso]
  exact ⟨⟨err, he⟩, rfl, by simp [createCalls], by simp [putCalls], rfl⟩

/-- C5 at a connection whose lookup finds no repository named `local`. -/
theorem Run_halts_on_ambiguous_SR_witness :
    (exStep.Run (exEnv false)
      (exBag "never" { exConnection 0 with SR_GetByNameLabel := fun _ => ([], none) })).action
      = some .ActionHalt := by
  have h := Run_halts_on_ambiguous_SR exStep (exEnv false)
    (exBag "never" { exConnection 0 with SR_GetByNameLabel := fun _ => ([], none) })
    (exConfig "never") { exConnection 0 with SR_GetByNameLabel := fun _ => ([], none) }
    rfl rfl rfl (by decide) (by decide)
  exact (h.1 (by decide)).2.1

/-- C6, evaluated: with `sr_iso_name = iso-store` and `sr_name = local`, the label
`GetISOSR` passes to `SR.GetByNameLabel` is `local`, and the repository it returns is
the one named `local`, not the one named `iso-store`. -/
theorem GetISOSR_looks_up_SrName :
    (exConfig "never").SrISOName = "iso-store" ∧
    ((exConfig "never").GetISOSR (exConnection 0)).2 = [Event.srGetByNameLabel "local"] ∧
    ((exConfig "never").GetISOSR (exConnection 0)).1 = .ok "OpaqueRef:sr-local" ∧
    (exConnection 0).SR_GetByNameLabel "iso-store" = (["OpaqueRef:sr-iso"], none) := by
  exact ⟨rfl, rfl, rfl, rfl⟩

/-! ## Cleanup of the upload step -/

/-- On the path of `StepUploadVdi.Cleanup` that reaches the destroy loop, the result is
determined by the loop. -/
theorem Cleanup_of_resolved (self : StepUploadVdi) (state : StateBag)
    (config : CommonConfig) (c : Connection) (uuid : String) (vdi : VDIRef)
    (hcfg : getCommonConfig state = some config) (hui : getUi state = some ())
    (hc : getConnection state = some c) (hkeep : config.ShouldKeepVM state = some false)
    (hid : state.GetOk self.VdiUuidKey = some (.str uuid)) (hne : uuid ≠ "")
    (hres : c.VDI_GetByUUID uuid = .ok vdi) :
    self.Cleanup state =
      match (destroyLoop c vdi 3 0 none).1 with
      | some err =>
        ⟨true, state, Event.vdiGetByUUID uuid :: (destroyLoop c vdi 3 0 none).2 ++
          [Event.error ("Can\x27t destroy VDI \x27" ++ uuid ++ "\x27: " ++ err)]⟩
      | none =>
        ⟨true, state.Put self.VdiUuidKey (.str ""),
          Event.vdiGetByUUID uuid :: (destroyLoop c vdi 3 0 none).2 ++
            [Event.say ("Destroyed VDI \x27" ++ self.VdiNameFunc () ++ "\x27"),
             Event.put self.VdiUuidKey (.str "")]⟩ := by
  unfold StepUploadVdi.Cleanup
  simp only [hcfg, hui, hc, hkeep, hid, if_neg hne, hres]

/-- C3: when the retention policy does not keep the resource and a non-empty
identifier recorded under `VdiUuidKey` resolves to a live object, `Cleanup` calls
`VDI.Destroy` exactly `k` times if the first successful attempt is the `k`-th with
`k ≤ 3`, sleeping `k - 1` seconds, reporting success and clearing the identifier;
it calls it exactly 3 times, and leaves the bag as it was, if none of the first three
attempts succeeds; it never makes a fourth call; and the identifier is the empty
string afterwards if and only if one of those attempts succeeded. -/
theorem Cleanup_destroy_retries (self : StepUploadVdi) (state : StateBag)
    (config : CommonConfig) (c : Connection) (uuid : String) (vdi : VDIRef)
    (hcfg : getCommonConfig state = some config) (hui : getUi state = some ())
    (hc : getConnection state = some c) (hkeep : config.ShouldKeepVM state = some false)
    (hid : state.GetOk self.VdiUuidKey = some (.str uuid)) (hne : uuid ≠ "")
    (hres : c.VDI_GetByUUID uuid = .ok vdi) :
    (∀ k, 1 ≤ k → k ≤ 3 → (∀ j, j < k - 1 → c.VDI_Destroy j vdi ≠ none) →
      c.VDI_Destroy (k - 1) vdi = none →
        destroyCalls (self.Cleanup state).trace = k ∧
        sleepSeconds (self.Cleanup state).trace = k - 1 ∧
        Event.say ("Destroyed VDI \x27" ++ self.VdiNameFunc () ++ "\x27")
          ∈ (self.Cleanup state).trace ∧
        (self.Cleanup state).state = state.Put self.VdiUuidKey (.str "")) ∧
    ((∀ j, j < 3 → c.VDI_Destroy j vdi ≠ none) →
        destroyCalls (self.Cleanup state).trace = 3 ∧
        (self.Cleanup state).state = state) ∧
    destroyCalls (self.Cleanup state).trace ≤ 3 ∧
    ((self.Cleanup state).state.GetOk self.VdiUuidKey = some (.str "") ↔
      ∃ j, j < 3 ∧ c.VDI_Destroy j vdi = none) ∧
    (self.Cleanup state).returned = true := by
  rw [Cleanup_of_resolved self state config c uuid vdi hcfg hui hc hkeep hid hne hres]
  have hput : (state.Put self.VdiUuidKey (.str "")).GetOk self.VdiUuidKey
      = some (.str "") := by simp [StateBag.GetOk, StateBag.Put]
  have hold : state.GetOk self.VdiUuidKey ≠ some (.str "") := by
    rw [hid]
    simpa using hne
  rcases h0 : c.VDI_Destroy 0 vdi with _ | e0
  · have hl : destroyLoop c vdi 3 0 none
        = (none, [Event.log "Trying to destroy VDI...", Event.vdiDestroy vdi]) := by
      simp [destroyLoop, h0]
    rw [hl]
    refine ⟨?_, ?_, ?_, ?_, rfl⟩
    · intro k hk1 hk3 hfail hsucc
      have hk : k = 1 := by
        by_contra hk
        exact hfail 0 (by omega) h0
      subst hk
      simp [destroyCalls, sleepSeconds]
    · intro hall
      exact absurd h0 (hall 0 (by omega))
    · simp [destroyCalls]
    · simp only [hput, true_iff]
      exact ⟨0, by omega, h0⟩
  · rcases h1 : c.VDI_Destroy 1 vdi with _ | e1
    · have hl : destroyLoop c vdi 3 0 none
          = (none, [Event.log "Trying to destroy VDI...", Event.vdiDestroy vdi, Event.sleep 1,
              Event.log "Trying to destroy VDI...", Event.vdiDestroy vdi]) := by
        simp [destroyLoop, h0, h1]
      rw [hl]
      refine ⟨?_, ?_, ?_, ?_, rfl⟩
      · intro k hk1 hk3 hfail hsucc
        have hk : k = 2 := by
          by_contra hk
          have hk' : k = 1 ∨ k = 3 := by omega
          rcases hk' with rfl | rfl
          · simp [h0] at hsucc
          · exact hfail 1 (by omega) h1
        subst hk
        simp [destroyCalls, sleepSeconds]
      · intro hall
        exact absurd h1 (hall 1 (by omega))
      · simp [destroyCalls]
      · simp only [hput, true_iff]
        exact ⟨1, by omega, h1⟩
    · rcases h2 : c.VDI_Destroy 2 vdi with _ | e2
      · have hl : destroyLoop c vdi 3 0 none
            = (none, [Event.log "Trying to destroy VDI...", Event.vdiDestroy vdi,
                Event.sleep 1, Event.log "Trying to destroy VDI...", Event.vdiDestroy vdi,
                Event.sleep 1, Event.log "Trying to destroy VDI...", Event.vdiDestroy vdi]) := by
          simp [destroyLoop, h0, h1, h2]
        rw [hl]
        refine ⟨?_, ?_, ?_, ?_, rfl⟩
        · intro k hk1 hk3 hfail hsucc
          have hk : k = 3 := by
            by_contra hk
            have hk' : k = 1 ∨ k = 2 := by omega
            rcases hk' with rfl | rfl
            · simp [h0] at hsucc
            · simp [h1] at hsucc
          subst hk
          simp [destroyCalls, sleepSeconds]
        · intro hall
          exact absurd h2 (hall 2 (by omega))
        · simp [destroyCalls]
        · simp only [hput, true_iff]
          exact ⟨2, by omega, h2⟩
      · have hl : destroyLoop c vdi 3 0 none
            = (some e2, [Event.log "Trying to destroy VDI...", Event.vdiDestroy vdi,
                Event.sleep 1, Event.log "Trying to destroy VDI...", Event.vdiDestroy vdi,
                Event.sleep 1, Event.log "Trying to destroy VDI...", Event.vdiDestroy vdi,
                Event.sleep 1]) := by
          simp [destroyLoop, h0, h1, h2]
        rw [hl]
        refine ⟨?_, ?_, ?_, ?_, rfl⟩
        · intro k hk1 hk3 hfail hsucc
          have hk' : k = 1 ∨ k = 2 ∨ k = 3 := by omega
          rcases hk' with rfl | rfl | rfl
          · simp [h0] at hsucc
          · simp [h1] at hsucc
          · simp [h2] at hsucc
        · intro _
          simp [destroyCalls]
        · simp [destroyCalls]
        · constructor
          · intro h
            exact absurd h hold
          · rintro ⟨j, hj, hd⟩
            have hj' : j = 0 ∨ j = 1 ∨ j = 2 := by omega
            rcases hj' with rfl | rfl | rfl
            · simp [h0] at hd
            · simp [h1] at hd
            · simp [h2] at hd

/-- C3 at failure, failure, success: three attempts, two seconds of delay, a reported
success and a cleared identifier. -/
theorem Cleanup_destroy_retries_witness :
    destroyCalls (exStep.Cleanup (exBagVdi "never" (exConnection 2))).trace = 3 ∧
    sleepSeconds (exStep.Cleanup (exBagVdi "never" (exConnection 2))).trace = 3 - 1 ∧
    Event.say ("Destroyed VDI \x27" ++ exStep.VdiNameFunc () ++ "\x27")
      ∈ (exStep.Cleanup (exBagVdi "never" (exConnection 2))).trace ∧
    (exStep.Cleanup (exBagVdi "never" (exConnection 2))).state
      = (exBagVdi "never" (exConnection 2)).Put exStep.VdiUuidKey (.str "") :=
  (Cleanup_destroy_retries exStep (exBagVdi "never" (exConnection 2)) (exConfig "never")
    (exConnection 2) "uuid-1" "OpaqueRef:vdi1" rfl rfl rfl rfl rfl (by decide) rfl).1 3
    (by decide) (by decide)
    (fun j hj => by
      have hj' : j = 0 ∨ j = 1 := by omega
      rcases hj' with rfl | rfl <;> simp [exConnection])
    rfl

/-- C2, refuted: with `on_success`, the cancelled flag recorded and the identifier
`uuid-1` recorded, `Cleanup` calls `VDI.Destroy` once and clears the identifier. -/
theorem Cleanup_on_success_cancelled_destroys :
    (exConfig "on_success").KeepVM = "on_success" ∧
    ((exBagVdi "on_success" (exConnection 0)).Put StateCancelled (.bool true)).GetOk
      StateCancelled = some (.bool true) ∧
    ((exBagVdi "on_success" (exConnection 0)).Put StateCancelled (.bool true)).GetOk
      exStep.VdiUuidKey = some (.str "uuid-1") ∧
    destroyCalls (exStep.Cleanup
      ((exBagVdi "on_success" (exConnection 0)).Put StateCancelled (.bool true))).trace = 1 ∧
    (exStep.Cleanup
      ((exBagVdi "on_success" (exConnection 0)).Put StateCancelled (.bool true))).state.GetOk
      exStep.VdiUuidKey = some (.str "") :=
  ⟨rfl, rfl, rfl, by decide, rfl⟩

/-- The destroy loop ends without error exactly when one of its three attempts
succeeds. -/
theorem destroyLoop_none_iff (c : Connection) (vdi : VDIRef) :
    (destroyLoop c vdi 3 0 none).1 = none ↔ ∃ j, j < 3 ∧ c.VDI_Destroy j vdi = none := by
  rcases h0 : c.VDI_Destroy 0 vdi with _ | e0
  · simp only [destroyLoop, h0, true_iff]
    exact ⟨0, by omega, h0⟩
  · rcases h1 : c.VDI_Destroy 1 vdi with _ | e1
    · simp only [destroyLoop, h0, h1, true_iff]
      exact ⟨1, by omega, h1⟩
    · rcases h2 : c.VDI_Destroy 2 vdi with _ | e2
      · simp only [destroyLoop, h0, h1, h2, true_iff]
        exact ⟨2, by omega, h2⟩
      · simp only [destroyLoop, h0, h1, h2]
        constructor
        · intro h
          simp at h
        · rintro ⟨j, hj, hd⟩
          have hj' : j = 0 ∨ j = 1 ∨ j = 2 := by omega
          rcases hj' with rfl | rfl | rfl
          · simp [h0] at hd
          · simp [h1] at hd
          · simp [h2] at hd

/-- A destroy loop with at least one round makes at least one `VDI.Destroy` call. -/
theorem destroyLoop_calls_pos (c : Connection) (vdi : VDIRef) (n i : Nat)
    (err : Option String) : 1 ≤ destroyCalls (destroyLoop c vdi (n + 1) i err).2 := by
  rcases h : c.VDI_Destroy i vdi with _ | e <;> simp [destroyLoop, h, destroyCalls]

/-- Counting destroy calls skips events that are not destroy calls. -/
theorem destroyCalls_lookup_cons (uuid : String) (t u : List Event) :
    destroyCalls (Event.vdiGetByUUID uuid :: t ++ u) = destroyCalls t + destroyCalls u := by
  simp [destroyCalls]

/-- C2, amended: for every state bag in which the retention policy is `on_success`,
a cancellation flag is recorded and a non-empty identifier is recorded under
`VdiUuidKey`, `ShouldKeepVM` is false and `Cleanup` does not skip destruction: its
first call is `VDI.GetByUUID` on the identifier, and when that resolves it calls
`VDI.Destroy` at least once and the identifier is cleared exactly when one of the
three attempts succeeds. -/
theorem Cleanup_on_success_cancelled (self : StepUploadVdi) (state : StateBag)
    (config : CommonConfig) (c : Connection) (uuid : String)
    (hcfg : getCommonConfig state = some config) (hui : getUi state = some ())
    (hc : getConnection state = some c) (hpol : config.KeepVM = "on_success")
    (hcan : state.GetOk StateCancelled ≠ none)
    (hid : state.GetOk self.VdiUuidKey = some (.str uuid)) (hne : uuid ≠ "") :
    config.ShouldKeepVM state = some false ∧
    (self.Cleanup state).trace.head? = some (Event.vdiGetByUUID uuid) ∧
    (∀ vdi, c.VDI_GetByUUID uuid = .ok vdi →
      1 ≤ destroyCalls (self.Cleanup state).trace ∧
      ((self.Cleanup state).state.GetOk self.VdiUuidKey = some (.str "") ↔
        ∃ j, j < 3 ∧ c.VDI_Destroy j vdi = none)) := by
  have h1 : ("on_success" : String) ≠ "always" := by decide
  have h2 : ("on_success" : String) ≠ "never" := by decide
  have hkeep : config.ShouldKeepVM state = some false := by
    cases hs : state.GetOk StateCancelled with
    | none => exact absurd hs hcan
    | some v => simp [CommonConfig.ShouldKeepVM, hpol, h1, h2, hs]
  refine ⟨hkeep, ?_, ?_⟩
  · rcases hres : c.VDI_GetByUUID uuid with err | vdi
    · unfold StepUploadVdi.Cleanup
      simp only [hcfg, hui, hc, hkeep, hid, if_neg hne, hres]
      rfl
    · rw [Cleanup_of_resolved self state config c uuid vdi hcfg hui hc hkeep hid hne hres]
      cases (destroyLoop c vdi 3 0 none).1 <;> rfl
  · intro vdi hres
    rw [Cleanup_of_resolved self state config c uuid vdi hcfg hui hc hkeep hid hne hres,
      ← destroyLoop_none_iff]
    have hpos : 1 ≤ destroyCalls (destroyLoop c vdi 3 0 none).2 :=
      destroyLoop_calls_pos c vdi 2 0 none
    have hold : state.GetOk self.VdiUuidKey ≠ some (.str "") := by
      rw [hid]
      simpa using hne
    cases hl : (destroyLoop c vdi 3 0 none).1 with
    | none =>
      simp only [destroyCalls_lookup_cons, true_iff]
      exact ⟨by omega, by simp [StateBag.GetOk, StateBag.Put]⟩
    | some e =>
      simp only [destroyCalls_lookup_cons]
      exact ⟨by omega, by simp [hold]⟩

/-- C2, amended, at the bag with `on_success`, the cancelled flag and `uuid-1`. -/
theorem Cleanup_on_success_cancelled_witness :
    (exConfig "on_success").ShouldKeepVM
      ((exBagVdi "on_success" (exConnection 0)).Put StateCancelled (.bool true))
      = some false ∧
    1 ≤ destroyCalls (exStep.Cleanup
      ((exBagVdi "on_success" (exConnection 0)).Put StateCancelled (.bool true))).trace :=
  have h := Cleanup_on_success_cancelled exStep
    ((exBagVdi "on_success" (exConnection 0)).Put StateCancelled (.bool true))
    (exConfig "on_success") (exConnection 0) "uuid-1" rfl rfl rfl rfl
    (by simp [StateBag.GetOk, StateBag.Put]) rfl (by decide)
  ⟨h.1, (h.2.2 "OpaqueRef:vdi1" rfl).1⟩

/-- With a valid retention policy and no identifier to destroy, `Cleanup` returns at
once. -/
theorem Cleanup_without_identifier (self : StepUploadVdi) (state : StateBag)
    (config : CommonConfig) (c : Connection)
    (hvalid : config.KeepVM = "always" ∨ config.KeepVM = "never" ∨
      config.KeepVM = "on_success")
    (hcfg : getCommonConfig state = some config) (hui : getUi state = some ())
    (hc : getConnection state = some c)
    (hid : state.GetOk self.VdiUuidKey = none ∨
      state.GetOk self.VdiUuidKey = some (.str "")) :
    self.Cleanup state = ⟨true, state, []⟩ := by
  have hkeep : ∃ b, config.ShouldKeepVM state = some b := by
    have h1 : ("on_success" : String) ≠ "always" := by decide
    have h2 : ("on_success" : String) ≠ "never" := by decide
    have h3 : ("never" : String) ≠ "always" := by decide
    rcases hvalid with h | h | h <;> simp [CommonConfig.ShouldKeepVM, h, h1, h2, h3]
  obtain ⟨b, hb⟩ := hkeep
  unfold StepUploadVdi.Cleanup
  simp only [hcfg, hui, hc, hb]
  cases b
  · rcases hid with h | h <;> simp [h]
  · rfl

/-- The bag after `Cleanup` is the bag before it, or the bag before it held an
identifier and now holds the empty string under `VdiUuidKey`. -/
theorem Cleanup_state_cases (self : StepUploadVdi) (state : StateBag) :
    (self.Cleanup state).state = state ∨
    ∃ uuid, state.GetOk self.VdiUuidKey = some (.str uuid) ∧
      (self.Cleanup state).state = state.Put self.VdiUuidKey (.str "") := by
  unfold StepUploadVdi.Cleanup
  split
  · split
    · exact Or.inl rfl
    · exact Or.inl rfl
    · split
      · exact Or.inl rfl
      · rename_i vdiUuid hget
        split
        · exact Or.inl rfl
        · split
          · exact Or.inl rfl
          · simp only []
            split
            · exact Or.inl rfl
            · exact Or.inr ⟨vdiUuid, hget, rfl⟩
      · exact Or.inl rfl
  · exact Or.inl rfl

/-- C8: for every state bag with a valid retention policy in which the identifier
under `VdiUuidKey` is absent or is the empty string, `Cleanup` returns without any
event (no `VDI.GetByUUID`, no `VDI.Destroy`, no other call, no write) and leaves the
bag unchanged; hence after a `Cleanup` that called `VDI.Destroy` and left the empty
string as the identifier, every further `Cleanup`, however many have run in between,
is such a no-op. -/
theorem Cleanup_idempotent (self : StepUploadVdi) (config : CommonConfig)
    (c : Connection)
    (hvalid : config.KeepVM = "always" ∨ config.KeepVM = "never" ∨
      config.KeepVM = "on_success") :
    (∀ state, getCommonConfig state = some config → getUi state = some () →
      getConnection state = some c →
      (state.GetOk self.VdiUuidKey = none ∨ state.GetOk self.VdiUuidKey = some (.str "")) →
      self.Cleanup state = ⟨true, state, []⟩ ∧ remoteCalls (self.Cleanup state).trace = 0) ∧
    (∀ state, getCommonConfig state = some config → getUi state = some () →
      getConnection state = some c →
      1 ≤ destroyCalls (self.Cleanup state).trace →
      (self.Cleanup state).state.GetOk self.VdiUuidKey = some (.str "") →
      ∀ n, self.Cleanup ((fun s => (self.Cleanup s).state)^[n] (self.Cleanup state).state)
        = ⟨true, (self.Cleanup state).state, []⟩) := by
  constructor
  · intro state hcfg hui hc hid
    have h := Cleanup_without_identifier self state config c hvalid hcfg hui hc hid
    exact ⟨h, by rw [h]; rfl⟩
  · intro state hcfg hui hc _ hclr n
    have hpres : getCommonConfig (self.Cleanup state).state = some config ∧
        getUi (self.Cleanup state).state = some () ∧
        getConnection (self.Cleanup state).state = some c := by
      rcases Cleanup_state_cases self state with h | ⟨uuid, hget, h⟩
      · rw [h]
        exact ⟨hcfg, hui, hc⟩
      · rw [h]
        have hk1 : "commonconfig" ≠ self.VdiUuidKey := by
          intro hk
          rw [← hk] at hget
          simp [getCommonConfig, StateBag.GetOk] at hcfg hget
          rw [hget] at hcfg
          simp at hcfg
        have hk2 : "ui" ≠ self.VdiUuidKey := by
          intro hk
          rw [← hk] at hget
          simp [getUi, StateBag.GetOk] at hui hget
          rw [hget] at hui
          simp at hui
        have hk3 : "client" ≠ self.VdiUuidKey := by
          intro hk
          rw [← hk] at hget
          simp [getConnection, StateBag.GetOk] at hc hget
          rw [hget] at hc
          simp at hc
        refine ⟨?_, ?_, ?_⟩
        · simpa [getCommonConfig, StateBag.Put, hk1] using hcfg
        · simpa [getUi, StateBag.Put, hk2] using hui
        · simpa [getConnection, StateBag.Put, hk3] using hc
    have hnoop := Cleanup_without_identifier self (self.Cleanup state).state config c hvalid
      hpres.1 hpres.2.1 hpres.2.2 (Or.inr hclr)
    have hiter : (fun s => (self.Cleanup s).state)^[n] (self.Cleanup state).state
        = (self.Cleanup state).state := by
      induction n with
      | zero => rfl
      | succ m ih =>
        rw [Function.iterate_succ_apply', ih]
        show (self.Cleanup (self.Cleanup state).state).state = _
        rw [hnoop]
    rw [hiter]
    exact hnoop

/-- C8 at the bag left by a `Cleanup` that destroyed `uuid-1` on the first attempt:
the second and the third `Cleanup` are no-ops. -/
theorem Cleanup_idempotent_witness :
    exStep.Cleanup (exStep.Cleanup (exBagVdi "never" (exConnection 0))).state
      = ⟨true, (exStep.Cleanup (exBagVdi "never" (exConnection 0))).state, []⟩ ∧
    exStep.Cleanup (exStep.Cleanup
        (exStep.Cleanup (exBagVdi "never" (exConnection 0))).state).state
      = ⟨true, (exStep.Cleanup (exBagVdi "never" (exConnection 0))).state, []⟩ :=
  have h := (Cleanup_idempotent exStep (exConfig "never") (exConnection 0)
    (Or.inr (Or.inl rfl))).2 (exBagVdi "never" (exConnection 0)) rfl rfl rfl
    (by decide) rfl
  ⟨h 0, h 1⟩

/-! ## Run of the upload step -/

/-- The trace of `GetISOSR` is empty or the one lookup. -/
theorem GetISOSR_trace_cases (config : CommonConfig) (c : Connection) :
    (config.GetISOSR c).2 = [] ∨
    (config.GetISOSR c).2 = [Event.srGetByNameLabel config.SrName] := by
  by_cases hiso : config.SrISOName = ""
  · left
    simp [CommonConfig.GetISOSR, hiso]
  · right
    exact GetISOSR_trace config c hiso

/-- C4, amended: for every run of `StepUploadVdi.Run` in which `VDI.Create` was called
and succeeded and the following `VDI.GetUUID` succeeded too, the identifier is in the
state bag under `VdiUuidKey` when `Run` returns, whether it returns Continue (the
transfer succeeded) or Halt (the transfer failed); the write comes right before the
one `HTTPUpload` call. -/
theorem Run_records_identifier (self : StepUploadVdi) (env : UploadEnv) (state : StateBag)
    (c : Connection) (record : VDIRecord) (vdi : VDIRef) (uuid : String)
    (hc : getConnection state = some c)
    (hcall : Event.vdiCreate record ∈ (self.Run env state).trace)
    (hcreate : c.VDI_Create record = .ok vdi) (huuid : c.VDI_GetUUID vdi = .ok uuid) :
    (self.Run env state).state.GetOk self.VdiUuidKey = some (.str uuid) ∧
    (env.HTTPUpload (uploadUrl c vdi) = none →
      (self.Run env state).action = some .ActionContinue) ∧
    (env.HTTPUpload (uploadUrl c vdi) ≠ none →
      (self.Run env state).action = some .ActionHalt) ∧
    ∃ pre post, (self.Run env state).trace =
        pre ++ Event.put self.VdiUuidKey (.str uuid) :: Event.httpUpload (uploadUrl c vdi)
          :: post ∧
      uploadCalls pre = 0 ∧ uploadCalls post = 0 := by
  have hput : (state.Put self.VdiUuidKey (.str uuid)).GetOk self.VdiUuidKey
      = some (.str uuid) := by simp [StateBag.GetOk, StateBag.Put]
  unfold StepUploadVdi.Run at hcall ⊢
  rcases hcfg : getCommonConfig state with _ | config
  · simp [hcfg] at hcall
  rcases hui : getUi state with _ | u
  · simp [hcfg, hui] at hcall
  simp only [hcfg, hui, hc] at hcall ⊢
  by_cases hpath : self.ImagePathFunc () = ""
  · simp [hpath] at hcall
  simp only [if_neg hpath] at hcall ⊢
  rcases hg : config.GetISOSR c with ⟨err | sr, ts⟩
  · have hts : ts = [] ∨ ts = [Event.srGetByNameLabel config.SrName] := by
      simpa [hg] using GetISOSR_trace_cases config c
    rcases hts with h | h <;> simp [hg, h] at hcall
  have hts : ts = [] ∨ ts = [Event.srGetByNameLabel config.SrName] := by
    simpa [hg] using GetISOSR_trace_cases config c
  simp only [hg] at hcall ⊢
  rcases ho : env.Open (self.ImagePathFunc ()) with _ | err
  swap
  · rcases hts with h | h <;> simp [ho, h] at hcall
  simp only [ho] at hcall ⊢
  rcases hs : env.Stat (self.ImagePathFunc ()) with err | fileLength
  · rcases hts with h | h <;> simp [hs, h] at hcall
  simp only [hs] at hcall ⊢
  have hrec : record = uploadRecord (self.VdiNameFunc ()) fileLength sr := by
    rcases hcr : c.VDI_Create (uploadRecord (self.VdiNameFunc ()) fileLength sr) with e | v
    · rcases hts with h | h <;> simpa [hcr, h] using hcall
    · rcases hgu : c.VDI_GetUUID v with e | u'
      · rcases hts with h | h <;> simpa [hcr, hgu, h] using hcall
      · rcases hup : env.HTTPUpload (uploadUrl c v) with _ | e <;>
          rcases hts with h | h <;> simpa [hcr, hgu, hup, h] using hcall
  rw [← hrec]
  simp only [hcreate, huuid]
  have hpre : uploadCalls ([Event.say ("Step: Upload VDI \x27" ++ self.VdiNameFunc () ++ "\x27"),
      Event.srGetAll,
      Event.say ("Step: Found SRs \x27" ++ fmtSlice c.SR_GetAll.1 ++ "\x27")] ++ ts ++
      [Event.openFile (self.ImagePathFunc ())] ++ [Event.statFile (self.ImagePathFunc ())] ++
      [Event.vdiCreate record] ++ [Event.vdiGetUUID vdi]) = 0 := by
    rcases hts with h | h <;> simp [uploadCalls, h]
  rcases hup : env.HTTPUpload (uploadUrl c vdi) with _ | e
  · refine ⟨hput, fun _ => rfl, fun h => absurd rfl h, _, [], ?_, hpre, rfl⟩
    simp
  · refine ⟨hput, fun h => by simp at h, fun _ => rfl, _,
      [Event.error ("Unable to upload VDI: " ++ e)], ?_, hpre, rfl⟩
    simp

/-- C4, amended, at a run whose transfer fails: the identifier `uuid-1` is in the bag
although `Run` halts. -/
theorem Run_records_identifier_witness :
    (exStep.Run (exEnv true) (exBag "never" (exConnection 0))).state.GetOk
      exStep.VdiUuidKey = some (.str "uuid-1") ∧
    (exStep.Run (exEnv true) (exBag "never" (exConnection 0))).action
      = some .ActionHalt :=
  have h := Run_records_identifier exStep (exEnv true) (exBag "never" (exConnection 0))
    (exConnection 0) (uploadRecord "disk" 104857600 "OpaqueRef:sr-local") "OpaqueRef:vdi1"
    "uuid-1" rfl (by simp [StepUploadVdi.Run, exStep, exEnv, exBag, exConnection, exConfig,
      getCommonConfig, getUi, getConnection, StateBag.Put, CommonConfig.GetISOSR]) rfl rfl
  ⟨h.1, h.2.2.1 (by simp [exEnv])⟩

/-- C4, refuted: when `VDI.Create` succeeds and `VDI.GetUUID` fails, `Run` has created
the object, halts, and nothing is recorded under `VdiUuidKey`. -/
theorem Run_create_without_identifier :
    exConnectionNoUuid.VDI_Create (uploadRecord "disk" 104857600 "OpaqueRef:sr-local")
      = .ok "OpaqueRef:vdi1" ∧
    createCalls (exStep.Run (exEnv false) (exBag "never" exConnectionNoUuid)).trace = 1 ∧
    (exStep.Run (exEnv false) (exBag "never" exConnectionNoUuid)).action
      = some .ActionHalt ∧
    (exStep.Run (exEnv false) (exBag "never" exConnectionNoUuid)).state.GetOk
      exStep.VdiUuidKey = none :=
  ⟨rfl, by decide, rfl, rfl⟩

/-! ## The VNC port step -/

/-- The command of the first tier is never the command that starts the relay. -/
theorem xenstoreReadCmd_ne_socatText (d a b e : String) :
    xenstoreReadCmd d ≠ socatText a b e := by
  intro h
  have h2 := congrArg (fun s => s.data.head?) h
  simp [xenstoreReadCmd, socatText, String.data_append] at h2

/-- The end of `Run` issues no remote command. -/
theorem sshCalls_finish (cmd : String) (self : StepGetVNCPort) (state : StateBag)
    (t : List Event) (p : String) :
    sshCalls cmd (self.finish state t p).trace = sshCalls cmd t := by
  unfold StepGetVNCPort.finish
  cases ParseUint_10_16 p <;> simp [sshCalls]

/-- The end of `Run` leaves the step as it is. -/
theorem finish_self (self : StepGetVNCPort) (state : StateBag) (t : List Event)
    (p : String) : (self.finish state t p).self = self := by
  unfold StepGetVNCPort.finish
  cases ParseUint_10_16 p <;> rfl

/-- The end of `Run` on the default port records 5900 and continues. -/
theorem finish_5900 (self : StepGetVNCPort) (state : StateBag) (t : List Event) :
    self.finish state t "5900" = ⟨some .ActionContinue, self,
      state.Put "instance_vnc_port" (.uint 5900),
      t ++ [Event.say ("Setting remote vnc port to " ++ "5900")] ++
        [Event.put "instance_vnc_port" (.uint 5900)]⟩ := by
  have h : ParseUint_10_16 "5900" = .ok 5900 := rfl
  simp [StepGetVNCPort.finish, h]

/-- C7: for every run of `StepGetVNCPort.Run` on a fresh step in which the first-tier
command fails, the host inventory is returned and the software-version query of the
first host (if there is one) returns no error: the first-tier command is issued exactly
once; the relay-spawn command is issued at most once, and it is issued if and only if
the first host reports a `product_version` string that is bytewise greater than
`7.6.0`.  When the reported string is not greater, `Run` records port 5900 under
`instance_vnc_port`, returns Continue, and the following `Cleanup` returns without
any event.  Neither `7.6.0` nor `7.10.0` is greater than `7.6.0`. -/
theorem Run_fallback_tier (self : StepGetVNCPort) (ssh : SSH) (state : StateBag)
    (domid err : String) (client : XenAPIClient) (hosts : List Host)
    (hui : getUi state = some ()) (hdom : state "domid" = some (.str domid))
    (h1 : ssh 0 (xenstoreReadCmd domid) = .error err)
    (hcl : state "client" = some (.xsclient client))
    (hh : client.GetHosts = .ok hosts)
    (hv : ∀ host, hosts.head? = some host → host.GetSoftwareVersion.2 = none)
    (hfresh : self.socat_running = false) :
    sshCalls (xenstoreReadCmd domid) (self.Run ssh state).trace = 1 ∧
    sshCalls (socatCmd domid) (self.Run ssh state).trace ≤ 1 ∧
    (sshCalls (socatCmd domid) (self.Run ssh state).trace = 1 ↔
      ∃ host v, hosts.head? = some host ∧
        host.GetSoftwareVersion.1.index "product_version" = some (.str v) ∧
        goStringLt "7.6.0" v = true) ∧
    (∀ host v, hosts.head? = some host →
      host.GetSoftwareVersion.1.index "product_version" = some (.str v) →
      goStringLt "7.6.0" v = false →
        (self.Run ssh state).action = some .ActionContinue ∧
        (self.Run ssh state).state = state.Put "instance_vnc_port" (.uint 5900) ∧
        ∀ ssh2, (self.Run ssh state).self.Cleanup ssh2 (self.Run ssh state).state
          = ⟨true, (self.Run ssh state).state, []⟩) ∧
    goStringLt "7.6.0" "7.6.0" = false ∧ goStringLt "7.6.0" "7.10.0" = false := by
  have hne : socatText ("59" ++ domid) ("59" ++ domid) domid ≠ xenstoreReadCmd domid :=
    (xenstoreReadCmd_ne_socatText domid _ _ domid).symm
  have hne2 : xenstoreReadCmd domid ≠ socatText ("59" ++ domid) ("59" ++ domid) domid :=
    xenstoreReadCmd_ne_socatText domid _ _ domid
  unfold StepGetVNCPort.Run
  simp only [hui, hdom, h1, hcl, hh]
  rcases hosts with _ | ⟨host, rest⟩
  · refine ⟨?_, ?_, ?_, ?_, by decide, by decide⟩ <;> simp [sshCalls, socatCmd, List.countP_cons, hne2]
  have hv0 : host.GetSoftwareVersion.2 = none := hv host rfl
  have hpanic :
      host.GetSoftwareVersion.1.index "product_version" = none ∨
      (∃ n, host.GetSoftwareVersion.1.index "product_version" = some (.int n)) ∨
      (∃ b, host.GetSoftwareVersion.1.index "product_version" = some (.bool b)) →
      ¬ ∃ host1 v, (host :: rest).head? = some host1 ∧
        host1.GetSoftwareVersion.1.index "product_version" = some (.str v) ∧
        goStringLt "7.6.0" v = true := by
    rintro hcase ⟨host1, v, hh1, hi1, _⟩
    simp only [List.head?_cons, Option.some.injEq] at hh1
    subst hh1
    rcases hcase with h | ⟨n, h⟩ | ⟨b, h⟩ <;> rw [h] at hi1 <;> simp at hi1
  rcases hi : host.GetSoftwareVersion.1.index "product_version" with _ | (v | n | b) <;>
    simp only [hi]
  · refine ⟨?_, ?_, ?_, ?_, by decide, by decide⟩
    · simp [sshCalls, List.countP_cons]
    · simp [sshCalls, socatCmd, List.countP_cons, hne2]
    · have := hpanic (Or.inl hi)
      simp only [this, iff_false]
      simp [sshCalls, socatCmd, List.countP_cons, hne2]
    · rintro host1 v hh1 hi1 _
      simp only [List.head?_cons, Option.some.injEq] at hh1
      subst hh1
      rw [hi] at hi1
      simp at hi1
  · have hex : (∃ host1 v1, (host :: rest).head? = some host1 ∧
        host1.GetSoftwareVersion.1.index "product_version" = some (.str v1) ∧
        goStringLt "7.6.0" v1 = true) ↔ goStringLt "7.6.0" v = true := by
      constructor
      · rintro ⟨host1, v1, hh1, hi1, hlt1⟩
        simp only [List.head?_cons, Option.some.injEq] at hh1
        subst hh1
        rw [hi] at hi1
        simp only [Option.some.injEq, XmlVal.str.injEq] at hi1
        subst hi1
        exact hlt1
      · intro hlt
        exact ⟨host, v, rfl, hi, hlt⟩
    rw [hex]
    by_cases hlt : goStringLt "7.6.0" v = true
    · rcases h2 : ssh 1 (socatText ("59" ++ domid) ("59" ++ domid) domid) with e | out
      · refine ⟨?_, ?_, ?_, ?_, by decide, by decide⟩
        · simp [sshCalls, List.countP_cons, hne, hv0, hlt, h2]
        · simp [sshCalls, socatCmd, List.countP_cons, hne2, hv0, hlt, h2]
        · simp [sshCalls, socatCmd, List.countP_cons, hne2, hv0, hlt, h2]
        · rintro host1 v1 hh1 hi1 hlt1
          simp only [List.head?_cons, Option.some.injEq] at hh1
          subst hh1
          rw [hi] at hi1
          simp only [Option.some.injEq, XmlVal.str.injEq] at hi1
          subst hi1
          rw [hlt] at hlt1
          simp at hlt1
      · refine ⟨?_, ?_, ?_, ?_, by decide, by decide⟩
        · simp only [hv0, hlt, if_true, h2, sshCalls_finish]
          simp [sshCalls, List.countP_cons, hne]
        · simp only [hv0, hlt, if_true, h2, sshCalls_finish]
          simp [sshCalls, socatCmd, List.countP_cons, hne2]
        · simp only [hv0, hlt, if_true, h2, sshCalls_finish]
          simp [sshCalls, socatCmd, List.countP_cons, hne2]
        · rintro host1 v1 hh1 hi1 hlt1
          simp only [List.head?_cons, Option.some.injEq] at hh1
          subst hh1
          rw [hi] at hi1
          simp only [Option.some.injEq, XmlVal.str.injEq] at hi1
          subst hi1
          rw [hlt] at hlt1
          simp at hlt1
    · refine ⟨?_, ?_, ?_, ?_, by decide, by decide⟩
      · simp only [hv0, hlt, Bool.false_eq_true, if_false, sshCalls_finish]
        simp [sshCalls, List.countP_cons]
      · simp only [hv0, hlt, Bool.false_eq_true, if_false, sshCalls_finish]
        simp [sshCalls, socatCmd, List.countP_cons, hne2]
      · simp only [hv0, hlt, Bool.false_eq_true, if_false, sshCalls_finish]
        simp [sshCalls, socatCmd, List.countP_cons, hne2]
      · intro _ _ _ _ _
        simp only [hv0, hlt, Bool.false_eq_true, if_false, finish_5900]
        simp [StepGetVNCPort.Cleanup, hfresh]
  · refine ⟨?_, ?_, ?_, ?_, by decide, by decide⟩
    · simp [sshCalls, List.countP_cons]
    · simp [sshCalls, socatCmd, List.countP_cons, hne2]
    · have := hpanic (Or.inr (Or.inl ⟨n, hi⟩))
      simp only [this, iff_false]
      simp [sshCalls, socatCmd, List.countP_cons, hne2]
    · rintro host1 v hh1 hi1 _
      simp only [List.head?_cons, Option.some.injEq] at hh1
      subst hh1
      rw [hi] at hi1
      simp at hi1
  · refine ⟨?_, ?_, ?_, ?_, by decide, by decide⟩
    · simp [sshCalls, List.countP_cons]
    · simp [sshCalls, socatCmd, List.countP_cons, hne2]
    · have := hpanic (Or.inr (Or.inr ⟨b, hi⟩))
      simp only [this, iff_false]
      simp [sshCalls, socatCmd, List.countP_cons, hne2]
    · rintro host1 v hh1 hi1 _
      simp only [List.head?_cons, Option.some.injEq] at hh1
      subst hh1
      rw [hi] at hi1
      simp at hi1

/-- C7 at the version `7.6.0`: the first-tier command is issued once, default port. -/
theorem Run_fallback_tier_witness :
    sshCalls (xenstoreReadCmd "12") (StepGetVNCPort.Run ⟨false⟩ exSSH
      (exVncBag "12" (some [("product_version", .str "7.6.0")]) none)).trace = 1 ∧
    (StepGetVNCPort.Run ⟨false⟩ exSSH
      (exVncBag "12" (some [("product_version", .str "7.6.0")]) none)).action
      = some .ActionContinue :=
  have h := Run_fallback_tier ⟨false⟩ exSSH
    (exVncBag "12" (some [("product_version", .str "7.6.0")]) none) "12"
    "xenstore-read: not found"
    { GetHosts := .ok [{ GetSoftwareVersion :=
        (some [("product_version", .str "7.6.0")], none) }] }
    [{ GetSoftwareVersion := (some [("product_version", .str "7.6.0")], none) }]
    rfl rfl rfl rfl rfl
    (fun host hh => by
      simp only [List.head?_cons, Option.some.injEq] at hh
      subst hh
      rfl)
    rfl
  ⟨h.1, (h.2.2.2.1 _ "7.6.0" rfl rfl (by decide)).1⟩

/-- C9, evaluated: when the first-tier command fails and the software-version query
of the only host returns a nil map with an error, `Run` panics at the type assertion:
it returns no action, and the last event is the version query, so nothing is
reported. -/
theorem Run_panics_on_version_error :
    (StepGetVNCPort.Run ⟨false⟩ exSSH (exVncBag "12" none (some "HOST_OFFLINE"))).action
      = none ∧
    (StepGetVNCPort.Run ⟨false⟩ exSSH (exVncBag "12" none (some "HOST_OFFLINE"))).trace.getLast?
      = some Event.getSoftwareVersion ∧
    (StepGetVNCPort.Run ⟨false⟩ exSSH
      (exVncBag "12" (some [("product_version", .str "8.2.0")]) (some "HOST_OFFLINE"))).action
      = some .ActionHalt :=
  ⟨rfl, rfl, rfl⟩

/-! ## The port of the relay -/

/-- A decimal digit is one byte in UTF-8, its code. -/
theorem utf8EncodeChar_digit (c : Char) (h : c.isDigit = true) :
    (String.utf8EncodeChar c).map (fun b => b.toNat) = [c.toNat] := by
  have hc : c.val ≤ 57 := by
    simp [Char.isDigit] at h
    exact h.2
  have hlt : c.val.toNat ≤ 57 := hc
  have h7 : c.val ≤ 127 := by
    show c.val.toNat ≤ 127
    omega
  simp [String.utf8EncodeChar, h7, Char.toNat]
  omega

/-- The code of a decimal digit lies between 48 and 57. -/
theorem digit_code (c : Char) (h : c.isDigit = true) : 48 ≤ c.toNat ∧ c.toNat ≤ 57 := by
  simp [Char.isDigit] at h
  have h1 : (48 : UInt32).toNat ≤ c.val.toNat := h.1
  have h2 : c.val.toNat ≤ (57 : UInt32).toNat := h.2
  exact ⟨h1, h2⟩

/-- The bytes of a string of decimal digits are the codes of its characters. -/
theorem flatMap_digits (cs : List Char) (h : ∀ c ∈ cs, c.isDigit = true) :
    cs.flatMap (fun c => (String.utf8EncodeChar c).map (fun b => b.toNat))
      = cs.map Char.toNat := by
  induction cs with
  | nil => rfl
  | cons c cs ih =>
    rw [List.flatMap_cons, utf8EncodeChar_digit c (h c (List.mem_cons_self c cs)),
      ih (fun d hd => h d (List.mem_cons_of_mem c hd))]
    rfl

/-- Reading digits never decreases the number read so far. -/
theorem le_foldl_digitStep (cs : List Char) (n : Nat) : n ≤ cs.foldl digitStep n := by
  induction cs generalizing n with
  | nil => exact le_refl n
  | cons c cs ih =>
    have := ih (digitStep n c)
    simp only [List.foldl_cons]
    unfold digitStep at this ⊢
    omega

/-- The digit loop of `ParseUint` on decimal digits, started below the 16-bit
maximum: the number read if it fits in 16 bits, a range error otherwise. -/
theorem parseUintLoop_digits (cs : List Char) (h : ∀ c ∈ cs, c.isDigit = true) (n : Nat)
    (hn : n ≤ 65535) :
    parseUintLoop (2 ^ 16 - 1) ((2 ^ 64 - 1) / 10 + 1) (cs.map Char.toNat) n =
      if cs.foldl digitStep n ≤ 65535 then .ok (cs.foldl digitStep n)
      else .error .ErrRange := by
  induction cs generalizing n with
  | nil => simp [parseUintLoop, hn]
  | cons c cs ih =>
    obtain ⟨hlo, hhi⟩ := digit_code c (h c (List.mem_cons_self c cs))
    have hcut : ¬ n ≥ (2 ^ 64 - 1) / 10 + 1 := by
      norm_num
      omega
    have h10 : n * 10 % 2 ^ 64 = n * 10 := Nat.mod_eq_of_lt (by norm_num; omega)
    have h11 : (n * 10 + (c.toNat - 48)) % 2 ^ 64 = n * 10 + (c.toNat - 48) :=
      Nat.mod_eq_of_lt (by norm_num; omega)
    simp only [List.map_cons, List.foldl_cons, parseUintLoop, hlo, hhi, and_self, if_true,
      hcut, if_false, h10, h11]
    have hstep : digitStep n c = n * 10 + (c.toNat - 48) := by
      unfold digitStep
      omega
    rw [hstep]
    by_cases hov : n * 10 + (c.toNat - 48) > 2 ^ 16 - 1
    · have hmono := le_foldl_digitStep cs (n * 10 + (c.toNat - 48))
      have hbig : ¬ List.foldl digitStep (n * 10 + (c.toNat - 48)) cs ≤ 65535 := by
        norm_num at hov
        omega
      have hov2 : ¬ n * 10 + (c.toNat - 48) ≤ 65535 := by
        norm_num at hov
        omega
      simp [hbig, hov2]
    · have hnlt : ¬ n * 10 + (c.toNat - 48) < n * 10 := by omega
      have hfit : n * 10 + (c.toNat - 48) ≤ 65535 := by
        norm_num at hov
        omega
      simp only [hnlt, hov, or_self, if_false]
      exact ih (fun d hd => h d (List.mem_cons_of_mem c hd)) _ hfit

/-- Reading `cs` after `a`: `a` shifted by the length of `cs`, plus the value of `cs`,
which is below the power of ten of its length. -/
theorem foldl_digitStep_shift (cs : List Char) (h : ∀ c ∈ cs, c.isDigit = true) (a : Nat) :
    cs.foldl digitStep a = a * 10 ^ cs.length + cs.foldl digitStep 0 ∧
    cs.foldl digitStep 0 < 10 ^ cs.length := by
  induction cs generalizing a with
  | nil => simp
  | cons c cs ih =>
    obtain ⟨hlo, hhi⟩ := digit_code c (h c (List.mem_cons_self c cs))
    have hcs := fun d hd => h d (List.mem_cons_of_mem c hd)
    have h1 := ih hcs (digitStep a c)
    have h2 := ih hcs (digitStep 0 c)
    simp only [List.foldl_cons, List.length_cons]
    rw [h1.1, h2.1]
    have hd0 : digitStep 0 c = c.toNat - 48 := by simp [digitStep]
    have hda : digitStep a c = 10 * a + (c.toNat - 48) := rfl
    rw [hd0, hda]
    have hp : 10 ^ (cs.length + 1) = 10 * 10 ^ cs.length := by ring
    rw [hp]
    have hlt := h2.2
    constructor
    · ring
    · have hc9 : c.toNat - 48 ≤ 9 := by omega
      have : (c.toNat - 48) * 10 ^ cs.length ≤ 9 * 10 ^ cs.length :=
        Nat.mul_le_mul_right _ hc9
      omega

/-- The characters of `59` followed by an identifier. -/
theorem toList_59 (domid : String) :
    ("59" ++ domid).toList = '5' :: '9' :: domid.toList := by
  simp [String.toList, String.data_append]

/-- On `59` followed by decimal digits, `ParseUint` returns the number written if it
fits in 16 bits, a range error otherwise. -/
theorem ParseUint_59 (domid : String) (hdig : ∀ c ∈ domid.toList, c.isDigit = true) :
    ParseUint_10_16 ("59" ++ domid) =
      if decimalValue ("59" ++ domid) ≤ 65535 then .ok (decimalValue ("59" ++ domid))
      else .error .ErrRange := by
  have hne : "59" ++ domid ≠ "" := by
    intro h
    have h2 := congrArg String.toList h
    rw [toList_59] at h2
    simp at h2
  have hall : ∀ c ∈ ("59" ++ domid).toList, c.isDigit = true := by
    rw [toList_59]
    intro c hc
    simp only [List.mem_cons] at hc
    rcases hc with rfl | rfl | hc
    · decide
    · decide
    · exact hdig c hc
  unfold ParseUint_10_16 utf8Bytes decimalValue
  rw [if_neg hne, flatMap_digits _ hall]
  exact parseUintLoop_digits _ hall 0 (by omega)

/-- The number written by `59` followed by decimal digits fits in 16 bits exactly when
there are at most 3 digits. -/
theorem decimalValue_59_le (domid : String) (hdig : ∀ c ∈ domid.toList, c.isDigit = true) :
    decimalValue ("59" ++ domid) ≤ 65535 ↔ domid.length ≤ 3 := by
  have hlen : domid.length = domid.toList.length := rfl
  have hval : decimalValue ("59" ++ domid) = domid.toList.foldl digitStep 59 := by
    unfold decimalValue
    rw [toList_59]
    rfl
  obtain ⟨hshift, hlt⟩ := foldl_digitStep_shift domid.toList hdig 59
  rw [hval, hshift, hlen]
  constructor
  · intro h
    by_contra hc
    have h4 : 10 ^ 4 ≤ 10 ^ domid.toList.length :=
      Nat.pow_le_pow_right (by omega) (by omega)
    have h4n : (10 : Nat) ^ 4 = 10000 := by norm_num
    rw [h4n] at h4
    omega
  · intro h
    have h3 : 10 ^ domid.toList.length ≤ 10 ^ 3 := Nat.pow_le_pow_right (by omega) h
    have h3n : (10 : Nat) ^ 3 = 1000 := by norm_num
    rw [h3n] at h3
    omega

/-- C10: for every domain identifier made of decimal digits, when `Run` takes the relay
branch and the spawn command is accepted: the number written by `59` followed by the
identifier is at most 65535 exactly when the identifier has at most 3 digits; in that
case `Run` returns Continue and records that number under `instance_vnc_port`; for
every longer identifier `Run` returns Halt and leaves the bag as it was, without any
write of `instance_vnc_port`, although the relay-spawn command has been issued and
`socat_running` is set, so the following `Cleanup` issues the kill command. -/
theorem Run_relay_port (self : StepGetVNCPort) (ssh : SSH) (state : StateBag)
    (domid err v out : String) (client : XenAPIClient) (host : Host) (rest : List Host)
    (hdig : ∀ c ∈ domid.toList, c.isDigit = true)
    (hui : getUi state = some ()) (hdom : state "domid" = some (.str domid))
    (h1 : ssh 0 (xenstoreReadCmd domid) = .error err)
    (hcl : state "client" = some (.xsclient client))
    (hh : client.GetHosts = .ok (host :: rest))
    (hi : host.GetSoftwareVersion.1.index "product_version" = some (.str v))
    (hv : host.GetSoftwareVersion.2 = none) (hlt : goStringLt "7.6.0" v = true)
    (h2 : ssh 1 (socatCmd domid) = .ok out) :
    (decimalValue ("59" ++ domid) ≤ 65535 ↔ domid.length ≤ 3) ∧
    (domid.length ≤ 3 →
      (self.Run ssh state).action = some .ActionContinue ∧
      (self.Run ssh state).state
        = state.Put "instance_vnc_port" (.uint (decimalValue ("59" ++ domid)))) ∧
    (3 < domid.length →
      (self.Run ssh state).action = some .ActionHalt ∧
      (self.Run ssh state).state = state ∧
      putCalls "instance_vnc_port" (self.Run ssh state).trace = 0 ∧
      sshCalls (socatCmd domid) (self.Run ssh state).trace = 1 ∧
      (self.Run ssh state).self.socat_running = true ∧
      ∀ ssh2, ((self.Run ssh state).self.Cleanup ssh2 (self.Run ssh state).state).trace.head?
        = some (Event.ssh (killCmd domid))) := by
  have hfit := decimalValue_59_le domid hdig
  have hparse := ParseUint_59 domid hdig
  have hne2 : xenstoreReadCmd domid ≠ socatText ("59" ++ domid) ("59" ++ domid) domid :=
    xenstoreReadCmd_ne_socatText domid _ _ domid
  have h2b : ssh 1 (socatText ("59" ++ domid) ("59" ++ domid) domid) = .ok out := h2
  refine ⟨hfit, ?_, ?_⟩
  · intro hlen
    have hle := hfit.mpr hlen
    rw [if_pos hle] at hparse
    unfold StepGetVNCPort.Run
    simp only [hui, hdom, h1, hcl, hh, hi, hv, hlt, if_true, h2b]
    simp [StepGetVNCPort.finish, hparse]
  · intro hlen
    have hgt : ¬ decimalValue ("59" ++ domid) ≤ 65535 := by
      intro h
      have := hfit.mp h
      omega
    rw [if_neg hgt] at hparse
    unfold StepGetVNCPort.Run
    simp only [hui, hdom, h1, hcl, hh, hi, hv, hlt, if_true, h2b]
    simp only [StepGetVNCPort.finish, hparse]
    refine ⟨trivial, trivial, ?_, ?_, trivial, ?_⟩
    · simp [putCalls]
    · simp [sshCalls, socatCmd, List.countP_cons, hne2]
    · intro ssh2
      simp only [StepGetVNCPort.Cleanup, hdom]
      cases ssh2 0 (killCmd domid) <;> rfl

/-- C10 at the identifiers `12` (port 5912) and `1234` (a halt with the relay left
running). -/
theorem Run_relay_port_witness :
    (StepGetVNCPort.Run ⟨false⟩ exSSH
      (exVncBag "12" (some [("product_version", .str "8.2.0")]) none)).state
      = (exVncBag "12" (some [("product_version", .str "8.2.0")]) none).Put
          "instance_vnc_port" (.uint (decimalValue ("59" ++ "12"))) ∧
    decimalValue ("59" ++ "12") = 5912 :=
  have h := Run_relay_port ⟨false⟩ exSSH
    (exVncBag "12" (some [("product_version", .str "8.2.0")]) none) "12"
    "xenstore-read: not found" "8.2.0" ""
    { GetHosts := .ok [{ GetSoftwareVersion :=
        (some [("product_version", .str "8.2.0")], none) }] }
    { GetSoftwareVersion := (some [("product_version", .str "8.2.0")], none) } []
    (by decide) rfl rfl rfl rfl rfl rfl rfl (by decide) rfl
  ⟨(h.2.1 (by decide)).2, by decide⟩

/-- When the first-tier command fails and the software-version query of the first host
returns an error, `Run` halts with the report of that error if the map that comes with
the error holds a `product_version` string, and panics otherwise. -/
theorem Run_of_version_error (self : StepGetVNCPort) (ssh : SSH) (state : StateBag)
    (domid err verr : String) (client : XenAPIClient) (host : Host) (rest : List Host)
    (hui : getUi state = some ()) (hdom : state "domid" = some (.str domid))
    (h1 : ssh 0 (xenstoreReadCmd domid) = .error err)
    (hcl : state "client" = some (.xsclient client))
    (hh : client.GetHosts = .ok (host :: rest))
    (hv : host.GetSoftwareVersion.2 = some verr) :
    ((∃ v, host.GetSoftwareVersion.1.index "product_version" = some (.str v)) →
      (self.Run ssh state).action = some .ActionHalt ∧
      (self.Run ssh state).trace.getLast?
        = some (Event.error ("Could not get the software version: " ++ verr))) ∧
    ((¬ ∃ v, host.GetSoftwareVersion.1.index "product_version" = some (.str v)) →
      (self.Run ssh state).action = none ∧
      (self.Run ssh state).trace.getLast? = some Event.getSoftwareVersion) := by
  unfold StepGetVNCPort.Run
  simp only [hui, hdom, h1, hcl, hh]
  rcases hi : host.GetSoftwareVersion.1.index "product_version" with _ | (v | n | b) <;>
    simp [hi, hv]
